import Mathlib

/-!
Shallow embedding of `vllm/power_management.py` (GPU power manager).

The Python module manages GPU SM clocks across inference phases:
`GPUPowerManager.__init__` queries per-device clock data through NVML,
`enter_decode_phase` / `enter_prefill_phase` switch the phase,
`record_tbt` maintains a bounded window of time-between-tokens samples
and triggers an automatic clock reset when the mean breaches a threshold,
and `initialize_power_manager` manages the module-global singleton.

Device-management (NVML) effects are modelled as traces of `DevCall`
values; a fault oracle `fail : DevCall → Bool` tells which calls raise.
Python exceptions are modelled by an explicit `raised` flag: statements
after a raise are skipped, mutations before it persist.  Latency samples
(Python floats whose arithmetic is exact on all inputs the claims use)
are modelled as rationals.
-/

namespace PowerManagement

/-- One call into the device-management (NVML) interface, as issued by
`power_management.py`. -/
inductive DevCall where
  | nvmlInitCall : DevCall
  | getHandle (device_id : Nat) : DevCall
  | getMaxClockInfo (device_id : Nat) : DevCall
  | getClockInfo (device_id : Nat) : DevCall
  | setGpuLockedClocks (device_id : Nat) (minClock maxClock : Nat) : DevCall
  | resetGpuLockedClocks (device_id : Nat) : DevCall
  | nvmlShutdownCall : DevCall
  deriving DecidableEq, Repr

/-- Fault oracle: which device-management calls raise an exception. -/
def FaultModel : Type := DevCall → Bool

/-- The oracle under which every device-management call succeeds. -/
def noFail : FaultModel := fun _ => false

/-- Configuration passed to `GPUPowerManager.__init__` /
`initialize_power_manager`. -/
structure PowerConfig where
  enabled : Bool
  decode_clock_reduction_percent : Nat
  monitor_tbt : Bool
  tbt_threshold_ms : ℚ
  device_ids : Option (List Nat)
  deriving DecidableEq, Repr

/-- Environment answering the constructor's device queries:
`torch.cuda.device_count()`, `nvmlDeviceGetMaxClockInfo` and
`nvmlDeviceGetClockInfo` per device. -/
structure DeviceEnv where
  deviceCount : Nat
  maxClock : Nat → Nat
  currentClock : Nat → Nat

/-- Target decode clock, from `__init__` lines 91-94 of
`power_management.py`:
`target_clock = int(max_sm_clock * (100 - reduction_percent) / 100)`.
Clocks are nonnegative integers and the configuration expects
`reduction_percent` in `[0, 100]`, where Python's `int(·)` of the true
division is the floor, i.e. `Nat` division. -/
def targetClock (max_sm_clock decode_clock_reduction_percent : Nat) : Nat :=
  max_sm_clock * (100 - decode_clock_reduction_percent) / 100

/-- State of a `GPUPowerManager` instance.  The clock dictionaries
(`Dict[int, int]` in Python) are association lists keyed by device id.
When the manager is disabled Python never assigns `device_ids`,
`original_clocks`, `target_clocks`, `in_decode_phase` or `tbt_values`;
every method returns before reading them, so the model gives them empty
or `false` defaults in that case. -/
structure GPUPowerManager where
  enabled : Bool
  decode_clock_reduction_percent : Nat
  monitor_tbt : Bool
  tbt_threshold_ms : ℚ
  device_ids : List Nat
  original_clocks : List (Nat × Nat)
  target_clocks : List (Nat × Nat)
  in_decode_phase : Bool
  tbt_values : List ℚ
  deriving DecidableEq, Repr

/-- Result of running one method: the state after it, the
device-management calls it issued (in order), and whether it raised. -/
structure OpResult where
  st : GPUPowerManager
  calls : List DevCall
  raised : Bool
  deriving DecidableEq, Repr

/-- Device-management calls issued by the constructor's initialization
loop (lines 69-98): `nvmlInit()`, then per device a handle lookup and
the max/current clock queries. -/
def ctorDevCalls (ids : List Nat) : List DevCall :=
  DevCall.nvmlInitCall ::
    ids.flatMap (fun d =>
      [DevCall.getHandle d, DevCall.getMaxClockInfo d, DevCall.getClockInfo d])

/-- Issue calls in order until one raises; none of them is inside a
`try`, so the first failure aborts the rest.  Returns the calls actually
issued and whether a raise occurred. -/
def emitUntilFail (fail : FaultModel) : List DevCall → List DevCall × Bool
  | [] => ([], false)
  | c :: rest =>
      if fail c then ([c], true)
      else (c :: (emitUntilFail fail rest).1, (emitUntilFail fail rest).2)

/-- `GPUPowerManager.__init__` (lines 41-107).  `self.enabled = enabled
and NVML_AVAILABLE`; when disabled it returns at once (no device call).
Otherwise `nvmlInit()` runs, device ids default to all devices, and the
loop records each device's current clock and computed target clock.
None of these calls is guarded, so a failure raises out of `__init__`
(modelled as result `none`). -/
def mkGPUPowerManager (fail : FaultModel) (nvml_available : Bool)
    (cfg : PowerConfig) (env : DeviceEnv) :
    Option GPUPowerManager × List DevCall :=
  let en := cfg.enabled && nvml_available
  if en then
    let ids := cfg.device_ids.getD (List.range env.deviceCount)
    let cs := (emitUntilFail fail (ctorDevCalls ids)).1
    if (emitUntilFail fail (ctorDevCalls ids)).2 then (none, cs)
    else
      (some
        { enabled := true
          decode_clock_reduction_percent := cfg.decode_clock_reduction_percent
          monitor_tbt := cfg.monitor_tbt
          tbt_threshold_ms := cfg.tbt_threshold_ms
          device_ids := ids
          original_clocks := ids.map (fun d => (d, env.currentClock d))
          target_clocks := ids.map (fun d =>
            (d, targetClock (env.maxClock d) cfg.decode_clock_reduction_percent))
          in_decode_phase := false
          tbt_values := [] }, cs)
  else
    (some
      { enabled := false
        decode_clock_reduction_percent := cfg.decode_clock_reduction_percent
        monitor_tbt := cfg.monitor_tbt
        tbt_threshold_ms := cfg.tbt_threshold_ms
        device_ids := []
        original_clocks := []
        target_clocks := []
        in_decode_phase := false
        tbt_values := [] }, [])

/-- The per-device loop of `enter_decode_phase` (lines 125-137).
`nvmlDeviceGetHandleByIndex` is OUTSIDE the `try`, so its failure
raises and aborts the loop.  Inside the `try` the
`nvmlDeviceSetGpuLockedClocks(handle, target_clock, target_clock)` line
is commented out in the source; only a log statement runs, so no
set-clock device call is issued and nothing in the `try` can fail. -/
def decodeLoop (fail : FaultModel) : List Nat → List DevCall × Bool
  | [] => ([], false)
  | d :: rest =>
      if fail (DevCall.getHandle d) then ([DevCall.getHandle d], true)
      else
        (DevCall.getHandle d :: (decodeLoop fail rest).1,
          (decodeLoop fail rest).2)

/-- `GPUPowerManager.enter_decode_phase` (lines 118-139): no-op unless
enabled and not already in decode; runs the device loop; sets
`in_decode_phase = True` after the loop (skipped if the loop raised). -/
def enter_decode_phase (fail : FaultModel) (m : GPUPowerManager) : OpResult :=
  if !m.enabled || m.in_decode_phase then ⟨m, [], false⟩
  else
    let cs := (decodeLoop fail m.device_ids).1
    if (decodeLoop fail m.device_ids).2 then ⟨m, cs, true⟩
    else ⟨{ m with in_decode_phase := true }, cs, false⟩

/-- The per-device loop of `reset_clocks` (lines 156-165).  The handle
lookup is outside the `try` (failure raises, aborting the loop);
`nvmlDeviceResetGpuLockedClocks` is inside the `try`, so the call is
issued and its failure is caught, the loop moving on to the next
device. -/
def resetLoop (fail : FaultModel) : List Nat → List DevCall × Bool
  | [] => ([], false)
  | d :: rest =>
      if fail (DevCall.getHandle d) then ([DevCall.getHandle d], true)
      else
        (DevCall.getHandle d :: DevCall.resetGpuLockedClocks d ::
            (resetLoop fail rest).1,
          (resetLoop fail rest).2)

/-- `GPUPowerManager.reset_clocks` (lines 149-165): no-op when
disabled; otherwise runs the reset loop.  Does not touch phase or
window state. -/
def reset_clocks (fail : FaultModel) (m : GPUPowerManager) : OpResult :=
  if !m.enabled then ⟨m, [], false⟩
  else ⟨m, (resetLoop fail m.device_ids).1, (resetLoop fail m.device_ids).2⟩

/-- `GPUPowerManager.enter_prefill_phase` (lines 141-147): no-op unless
enabled and currently in decode; otherwise `reset_clocks()` then
`in_decode_phase = False` (skipped if `reset_clocks` raised). -/
def enter_prefill_phase (fail : FaultModel) (m : GPUPowerManager) : OpResult :=
  if !m.enabled || !m.in_decode_phase then ⟨m, [], false⟩
  else
    let rc := reset_clocks fail m
    if rc.raised then ⟨rc.st, rc.calls, true⟩
    else ⟨{ rc.st with in_decode_phase := false }, rc.calls, false⟩

/-- The window update of `record_tbt` (lines 177-181): append, then
`pop(0)` when the length exceeds 10. -/
def evictWindow (w : List ℚ) : List ℚ :=
  if w.length > 10 then w.tail else w

/-- `GPUPowerManager.record_tbt` (lines 167-192): no-op unless enabled
and monitoring.  Appends the sample and evicts the oldest beyond
capacity 10; then, if in decode phase with at least 3 samples and the
window mean strictly above the threshold, calls `reset_clocks()` and
sets `in_decode_phase = False` (the phase write skipped if the reset
raised). -/
def record_tbt (fail : FaultModel) (m : GPUPowerManager) (tbt_ms : ℚ) :
    OpResult :=
  if !m.enabled || !m.monitor_tbt then ⟨m, [], false⟩
  else
    let w := evictWindow (m.tbt_values ++ [tbt_ms])
    let m1 := { m with tbt_values := w }
    if m1.in_decode_phase ∧ 3 ≤ w.length ∧
        m.tbt_threshold_ms < w.sum / (w.length : ℚ) then
      let rc := reset_clocks fail m1
      if rc.raised then ⟨rc.st, rc.calls, true⟩
      else ⟨{ rc.st with in_decode_phase := false }, rc.calls, false⟩
    else ⟨m1, [], false⟩

/-- `GPUPowerManager.__del__` (lines 109-116): when enabled,
`reset_clocks()` then `nvmlShutdown()` (the latter in a `try`, so it is
issued and its own failure swallowed; it is not reached when
`reset_clocks` raised, and an exception escaping `__del__` is swallowed
by the runtime, never reaching the caller).  Returns the calls
issued during finalization. -/
def delGPUPowerManager (fail : FaultModel) (m : GPUPowerManager) :
    List DevCall :=
  if m.enabled then
    let rc := reset_clocks fail m
    if rc.raised then rc.calls else rc.calls ++ [DevCall.nvmlShutdownCall]
  else []

/-- `initialize_power_manager` (lines 199-232) acting on the module
global `_power_manager : Option GPUPowerManager`.  If a previous
instance exists, `_power_manager = None` drops the global's reference;
with the global holding the last reference (CPython reference
counting), the previous instance is finalized — `__del__` runs — at
that point, before the new instance is constructed.  Returns the new
global, the device calls issued (finalization first, construction
after), and whether the constructor raised. -/
def initialize_power_manager (fail : FaultModel)
    (g : Option GPUPowerManager) (nvml_available : Bool)
    (cfg : PowerConfig) (env : DeviceEnv) :
    Option GPUPowerManager × List DevCall × Bool :=
  let prevCalls := match g with
    | some prev => delGPUPowerManager fail prev
    | none => []
  let ctor := mkGPUPowerManager fail nvml_available cfg env
  (ctor.1, prevCalls ++ ctor.2, ctor.1.isNone)

/-- One call through the module-level facade: `enter_decode_phase`,
`enter_prefill_phase` or `record_tbt`. -/
inductive Op where
  | enterDecode : Op
  | enterPrefill : Op
  | recordTbt (tbt_ms : ℚ) : Op
  deriving DecidableEq, Repr

/-- Dispatch one facade call to the manager method it invokes. -/
def runOp (fail : FaultModel) (m : GPUPowerManager) : Op → OpResult
  | Op.enterDecode => enter_decode_phase fail m
  | Op.enterPrefill => enter_prefill_phase fail m
  | Op.recordTbt x => record_tbt fail m x

/-- Run a finite sequence of facade calls, accumulating the
device-management trace.  (A raise returns to the caller, who may keep
calling, so the sequence continues from the post-raise state.) -/
def runOps (fail : FaultModel) (m : GPUPowerManager) :
    List Op → GPUPowerManager × List DevCall
  | [] => (m, [])
  | op :: rest =>
      ((runOps fail (runOp fail m op).st rest).1,
        (runOp fail m op).calls ++ (runOps fail (runOp fail m op).st rest).2)

/-- The rollback test of `record_tbt` (lines 184-187), over a manager
and the window `w` as it stands after the append-and-evict step: in
decode phase, at least 3 samples, and the window's arithmetic mean
strictly above the threshold. -/
def rollbackCond (m : GPUPowerManager) (w : List ℚ) : Prop :=
  m.in_decode_phase = true ∧ 3 ≤ w.length ∧
    m.tbt_threshold_ms < w.sum / (w.length : ℚ)

instance (m : GPUPowerManager) (w : List ℚ) : Decidable (rollbackCond m w) :=
  inferInstanceAs (Decidable (_ ∧ _ ∧ _))

/-- Record a list of samples through the facade, in order. -/
def recordMany (m : GPUPowerManager) (qs : List ℚ) :
    GPUPowerManager × List DevCall :=
  runOps noFail m (qs.map Op.recordTbt)

/-! ### Concrete scenario data -/

/-- Scenario A configuration: enabled, 5% reduction, monitoring with a
100 ms threshold, one managed device (id 0). -/
def cfgA : PowerConfig := ⟨true, 5, true, 100, some [0]⟩

/-- Scenario A device environment: one device whose max SM clock is
2000 MHz and whose current SM clock is 1350 MHz. -/
def envA : DeviceEnv := ⟨1, fun _ => 2000, fun _ => 1350⟩

/-- The manager scenario A's construction yields: one device (id 0)
with target decode clock 1900 MHz, in prefill phase, empty window. -/
def pmA : GPUPowerManager :=
  ⟨true, 5, true, 100, [0], [(0, 1350)], [(0, 1900)], false, []⟩

/-- Scenario B/C starting manager: enabled, monitoring, threshold
100 ms, one device, already in decode phase, empty window. -/
def pmB : GPUPowerManager :=
  ⟨true, 5, true, 100, [0], [(0, 1350)], [(0, 1900)], true, []⟩

/-- A manager with two devices, currently in prefill phase. -/
def pmTwo : GPUPowerManager :=
  ⟨true, 5, true, 100, [0, 1], [(0, 1350), (1, 1350)],
    [(0, 1900), (1, 1900)], false, []⟩

/-- A previous global instance for scenario D: two devices, currently
in decode phase. -/
def pmPrev : GPUPowerManager :=
  ⟨true, 5, true, 100, [0, 1], [(0, 1350), (1, 1350)],
    [(0, 1900), (1, 1900)], true, []⟩

/-- An enabled manager in decode phase with the window already holding
`[150, 160]`. -/
def pmNearBreach : GPUPowerManager :=
  ⟨true, 5, true, 100, [0], [(0, 1350)], [(0, 1900)], true, [150, 160]⟩

/-- The inert manager produced by construction with NVML unavailable
under scenario A's configuration. -/
def pmInert : GPUPowerManager :=
  ⟨false, 5, true, 100, [], [], [], false, []⟩

/-- Fault oracle under which the handle lookup for device 0 raises. -/
def failHandle0 : FaultModel := fun c => decide (c = DevCall.getHandle 0)

/-- Fault oracle under which the locked-clock reset call on device 0
raises (and nothing else does). -/
def failReset0 : FaultModel :=
  fun c => decide (c = DevCall.resetGpuLockedClocks 0)

/-! ### Helper lemmas -/

/-- When no handle lookup fails, the decode loop visits every device,
issues exactly its handle lookup (the set-clock line being commented
out), and does not raise. -/
theorem decodeLoop_of_handles_ok (fail : FaultModel) (ids : List Nat)
    (h : ∀ d, fail (DevCall.getHandle d) = false) :
    decodeLoop fail ids = (ids.map DevCall.getHandle, false) := by
  induction ids with
  | nil => rfl
  | cons d rest ih => simp [decodeLoop, h d, ih]

/-- When no handle lookup fails, the reset loop visits every device,
issuing its handle lookup and its locked-clock reset (the latter also
when it fails, its exception being caught), and does not raise. -/
theorem resetLoop_of_handles_ok (fail : FaultModel) (ids : List Nat)
    (h : ∀ d, fail (DevCall.getHandle d) = false) :
    resetLoop fail ids =
      (ids.flatMap (fun d =>
        [DevCall.getHandle d, DevCall.resetGpuLockedClocks d]), false) := by
  induction ids with
  | nil => rfl
  | cons d rest ih => simp [resetLoop, h d, ih]

/-- A disabled manager ignores any single facade call: same state, no
device call, no raise. -/
theorem runOp_of_disabled (fail : FaultModel) (m : GPUPowerManager)
    (hm : m.enabled = false) (op : Op) : runOp fail m op = ⟨m, [], false⟩ := by
  cases op <;>
    simp [runOp, enter_decode_phase, enter_prefill_phase, record_tbt, hm]

/-- A disabled manager ignores any finite sequence of facade calls. -/
theorem runOps_of_disabled (fail : FaultModel) (m : GPUPowerManager)
    (hm : m.enabled = false) (ops : List Op) : runOps fail m ops = (m, []) := by
  induction ops with
  | nil => rfl
  | cons op rest ih => simp [runOps, runOp_of_disabled fail m hm op, ih]

/-- `reset_clocks` never changes the manager's state. -/
theorem reset_clocks_st (fail : FaultModel) (m : GPUPowerManager) :
    (reset_clocks fail m).st = m := by
  unfold reset_clocks
  split <;> rfl

/-- `record_tbt` always leaves the window equal to the appended-and-
evicted old window (when enabled and monitoring), whether or not the
rollback fires and whether or not a device call raises. -/
theorem record_tbt_window (fail : FaultModel) (m : GPUPowerManager)
    (x : ℚ) (he : m.enabled = true) (hmon : m.monitor_tbt = true) :
    (record_tbt fail m x).st.tbt_values =
      evictWindow (m.tbt_values ++ [x]) := by
  unfold record_tbt
  simp only [he, hmon, Bool.not_true, Bool.or_self, Bool.false_eq_true,
    if_false]
  split
  · split
    · rw [reset_clocks_st]
    · rw [reset_clocks_st]
  · rfl

/-- `record_tbt` changes nothing but the window and the phase flag. -/
theorem record_tbt_frame (fail : FaultModel) (m : GPUPowerManager) (x : ℚ) :
    (record_tbt fail m x).st.enabled = m.enabled ∧
    (record_tbt fail m x).st.monitor_tbt = m.monitor_tbt ∧
    (record_tbt fail m x).st.device_ids = m.device_ids ∧
    (record_tbt fail m x).st.tbt_threshold_ms = m.tbt_threshold_ms := by
  unfold record_tbt
  split
  · exact ⟨rfl, rfl, rfl, rfl⟩
  · refine ⟨?_, ?_, ?_, ?_⟩ <;>
    · dsimp only
      split
      · split
        · rw [reset_clocks_st]
        · rw [reset_clocks_st]
      · rfl

/-- Appending one sample to a window within capacity keeps it within
capacity. -/
theorem evictWindow_append_length_le (w : List ℚ) (q : ℚ)
    (h : w.length ≤ 10) : (evictWindow (w ++ [q])).length ≤ 10 := by
  unfold evictWindow
  split
  · simpa using h
  · omega

/-- Running a pure sequence of `record_tbt` calls folds the
append-and-evict step over the window (enabled, monitoring manager). -/
theorem runOps_records_window (fail : FaultModel) (m : GPUPowerManager)
    (qs : List ℚ) (he : m.enabled = true) (hmon : m.monitor_tbt = true) :
    (runOps fail m (qs.map Op.recordTbt)).1.tbt_values =
      qs.foldl (fun w q => evictWindow (w ++ [q])) m.tbt_values := by
  induction qs generalizing m with
  | nil => rfl
  | cons q rest ih =>
      have hframe := record_tbt_frame fail m q
      have he2 : (record_tbt fail m q).st.enabled = true := by
        rw [hframe.1]; exact he
      have hmon2 : (record_tbt fail m q).st.monitor_tbt = true := by
        rw [hframe.2.1]; exact hmon
      have hwin := record_tbt_window fail m q he hmon
      simp only [List.map_cons, runOps, runOp, List.foldl_cons]
      rw [ih (record_tbt fail m q).st he2 hmon2, hwin]

/-- Folding the append-and-evict step never grows the window past
capacity 10. -/
theorem foldl_evict_length_le (qs : List ℚ) (w : List ℚ)
    (h : w.length ≤ 10) :
    (qs.foldl (fun w q => evictWindow (w ++ [q])) w).length ≤ 10 := by
  induction qs generalizing w with
  | nil => exact h
  | cons q rest ih =>
      exact ih _ (evictWindow_append_length_le w q h)

/-- While total content fits in the capacity, the fold is a plain
append: no sample is evicted. -/
theorem foldl_evict_of_fits (qs : List ℚ) (w : List ℚ)
    (h : w.length + qs.length ≤ 10) :
    qs.foldl (fun w q => evictWindow (w ++ [q])) w = w ++ qs := by
  induction qs generalizing w with
  | nil => simp
  | cons q rest ih =>
      have hlen : ¬ (w ++ [q]).length > 10 := by
        simp only [List.length_cons] at h
        simp only [List.length_append, List.length_cons, List.length_nil]
        omega
      have hstep : evictWindow (w ++ [q]) = w ++ [q] := by
        unfold evictWindow
        exact if_neg hlen
      have hfit : (w ++ [q]).length + rest.length ≤ 10 := by
        simp only [List.length_cons] at h
        simp only [List.length_append, List.length_cons, List.length_nil]
        omega
      calc (q :: rest).foldl (fun w q => evictWindow (w ++ [q])) w
          = rest.foldl (fun w q => evictWindow (w ++ [q])) (w ++ [q]) := by
            rw [List.foldl_cons, hstep]
        _ = (w ++ [q]) ++ rest := ih (w ++ [q]) hfit
        _ = w ++ q :: rest := by simp

/-- Closed form of `record_tbt` under the all-succeed fault model, on
an enabled monitoring manager: the window is appended and evicted, and
the rollback branch is taken exactly when `rollbackCond` holds of the
new window, in which case every device gets a handle lookup and a
locked-clock reset and the phase returns to prefill. -/
theorem record_tbt_eq (m : GPUPowerManager) (x : ℚ)
    (he : m.enabled = true) (hmon : m.monitor_tbt = true) :
    record_tbt noFail m x =
      if rollbackCond m (evictWindow (m.tbt_values ++ [x])) then
        ⟨{ m with
            tbt_values := evictWindow (m.tbt_values ++ [x]),
            in_decode_phase := false },
          m.device_ids.flatMap (fun d =>
            [DevCall.getHandle d, DevCall.resetGpuLockedClocks d]),
          false⟩
      else
        ⟨{ m with tbt_values := evictWindow (m.tbt_values ++ [x]) },
          [], false⟩ := by
  have hloop := resetLoop_of_handles_ok noFail m.device_ids (fun d => rfl)
  unfold record_tbt
  simp only [he, hmon, Bool.not_true, Bool.or_self, Bool.false_eq_true,
    if_false]
  split
  case isTrue hcnd =>
    rw [if_pos
      (show rollbackCond m (evictWindow (m.tbt_values ++ [x])) from hcnd)]
    unfold reset_clocks
    simp only [he, Bool.not_true, Bool.false_eq_true, if_false]
    rw [hloop]
    simp [he, hmon]
  case isFalse hcnd =>
    rw [if_neg
      (show ¬ rollbackCond m (evictWindow (m.tbt_values ++ [x])) from
        hcnd)]

/-! ### Claim theorems -/

/-- C9: for every reduction percent `r ∈ [0,100]` and max clock
`m ≥ 0`, the target clock computed at construction equals
`⌊m × (100 − r) / 100⌋` and satisfies `0 ≤ target ≤ m`. -/
theorem targetClock_floor_and_bounds (m r : Nat) (h : r ≤ 100) :
    targetClock m r = Nat.floor ((m : ℚ) * ((100 : ℚ) - (r : ℚ)) / 100) ∧
    targetClock m r ≤ m := by
  constructor
  · have hc : (100 : ℚ) - (r : ℚ) = ((100 - r : ℕ) : ℚ) := by
      rw [Nat.cast_sub h]
      norm_num
    rw [hc, ← Nat.cast_mul,
      show (100 : ℚ) = ((100 : ℕ) : ℚ) by norm_num,
      Nat.floor_div_nat, Nat.floor_natCast]
    rfl
  · unfold targetClock
    calc m * (100 - r) / 100 ≤ m * 100 / 100 :=
          Nat.div_le_div_right (Nat.mul_le_mul le_rfl (by omega))
      _ = m := Nat.mul_div_cancel m (by norm_num)

/-- C9 witness: at `m = 2000`, `r = 5` the bounds hold (and the target
is 1900). -/
theorem targetClock_floor_and_bounds_witness :
    (5 ≤ 100 ∧
      (targetClock 2000 5 =
          Nat.floor ((2000 : ℚ) * ((100 : ℚ) - (5 : ℚ)) / 100) ∧
        targetClock 2000 5 ≤ 2000)) ∧
    targetClock 2000 5 = 1900 :=
  ⟨⟨by norm_num, targetClock_floor_and_bounds 2000 5 (by norm_num)⟩, rfl⟩

/-- C2: constructing with the device-management interface unavailable
does not raise, yields a registry with zero usable devices and a
disabled manager, and every subsequent operation is a no-op issuing no
device call. -/
theorem ctor_nvml_unavailable_inert (fail : FaultModel) (cfg : PowerConfig)
    (env : DeviceEnv) :
    (mkGPUPowerManager fail false cfg env).1.isSome = true ∧
    (mkGPUPowerManager fail false cfg env).2 = [] ∧
    ∀ m, (mkGPUPowerManager fail false cfg env).1 = some m →
      m.enabled = false ∧ m.device_ids = [] ∧
      ∀ (fail2 : FaultModel) (ops : List Op),
        runOps fail2 m ops = (m, []) := by
  unfold mkGPUPowerManager
  simp only [Bool.and_false, Bool.false_eq_true, if_false]
  refine ⟨by trivial, by trivial, ?_⟩
  intro m hm
  obtain rfl : _ = m := Option.some.inj hm
  exact ⟨rfl, rfl, fun fail2 ops => runOps_of_disabled fail2 _ rfl ops⟩

/-- C2 witness: the scenario A configuration constructed without NVML
yields the concrete inert manager, on which a decode/record/prefill
sequence does nothing. -/
theorem ctor_nvml_unavailable_inert_witness :
    (mkGPUPowerManager noFail false cfgA envA).1 = some pmInert ∧
    pmInert.enabled = false ∧ pmInert.device_ids = [] ∧
    runOps noFail pmInert
      [Op.enterDecode, Op.recordTbt 50, Op.enterPrefill] = (pmInert, []) := by
  have h := ctor_nvml_unavailable_inert noFail cfgA envA
  have hm : (mkGPUPowerManager noFail false cfgA envA).1 = some pmInert := by
    decide
  have h3 := h.2.2 pmInert hm
  exact ⟨hm, h3.1, h3.2.1,
    h3.2.2 noFail [Op.enterDecode, Op.recordTbt 50, Op.enterPrefill]⟩

/-- C6: an inert manager — one constructed while the device interface
is absent at load time, or with `enabled = false` in the config —
issues no device-management call and records no latency sample over any
finite sequence of `enter_decode_phase`, `enter_prefill_phase` and
`record_tbt` calls: its state never changes and its trace is empty. -/
theorem inert_manager_no_calls (fail : FaultModel) (nvml_available : Bool)
    (cfg : PowerConfig) (env : DeviceEnv) (m : GPUPowerManager)
    (hcase : cfg.enabled = false ∨ nvml_available = false)
    (hm : (mkGPUPowerManager fail nvml_available cfg env).1 = some m) :
    ∀ (fail2 : FaultModel) (ops : List Op),
      runOps fail2 m ops = (m, []) ∧
      (runOps fail2 m ops).1.tbt_values = m.tbt_values := by
  have hen : (cfg.enabled && nvml_available) = false := by
    rcases hcase with h | h <;> simp [h]
  have hme : m.enabled = false := by
    unfold mkGPUPowerManager at hm
    rw [hen] at hm
    simp only [Bool.false_eq_true, if_false] at hm
    obtain rfl : _ = m := Option.some.inj hm
    rfl
  intro fail2 ops
  refine ⟨runOps_of_disabled fail2 m hme ops, ?_⟩
  rw [runOps_of_disabled fail2 m hme ops]

/-- C6 witness: under scenario A's configuration with NVML absent, the
concrete inert manager ignores a decode/record/record/prefill sequence
even when every device call would fail. -/
theorem inert_manager_no_calls_witness :
    runOps (fun _ => true) pmInert
        [Op.enterDecode, Op.recordTbt 150, Op.recordTbt 160,
          Op.enterPrefill] = (pmInert, []) ∧
    (runOps (fun _ => true) pmInert
        [Op.enterDecode, Op.recordTbt 150, Op.recordTbt 160,
          Op.enterPrefill]).1.tbt_values = pmInert.tbt_values :=
  inert_manager_no_calls noFail false cfgA envA pmInert (Or.inr rfl)
    (by decide) (fun _ => true)
    [Op.enterDecode, Op.recordTbt 150, Op.recordTbt 160, Op.enterPrefill]

/-- C10: only `record_tbt`'s append-and-evict step modifies the latency
window — `enter_decode_phase` and `enter_prefill_phase` leave it
unchanged under every fault model, and `record_tbt` (enabled,
monitoring) leaves it equal to the appended-and-evicted window whether
or not the rollback fires, so right after a rollback the window still
holds the samples whose mean triggered it. -/
theorem window_only_modified_by_record (fail : FaultModel)
    (m : GPUPowerManager) (x : ℚ) :
    (enter_decode_phase fail m).st.tbt_values = m.tbt_values ∧
    (enter_prefill_phase fail m).st.tbt_values = m.tbt_values ∧
    (m.enabled = true → m.monitor_tbt = true →
      (record_tbt fail m x).st.tbt_values =
        evictWindow (m.tbt_values ++ [x])) := by
  refine ⟨?_, ?_, fun he hmon => record_tbt_window fail m x he hmon⟩
  · unfold enter_decode_phase
    split
    · rfl
    · split <;> rfl
  · unfold enter_prefill_phase
    split
    · rfl
    · dsimp only
      split
      · rw [reset_clocks_st]
      · rw [reset_clocks_st]

/-- C10 witness: on the near-breach decode manager, the phase calls
leave the window `[150, 160]` unchanged and recording 170 — which
triggers the rollback — leaves the window `[150, 160, 170]`. -/
theorem window_only_modified_by_record_witness :
    (enter_decode_phase noFail pmNearBreach).st.tbt_values =
        pmNearBreach.tbt_values ∧
    (enter_prefill_phase noFail pmNearBreach).st.tbt_values =
        pmNearBreach.tbt_values ∧
    (record_tbt noFail pmNearBreach 170).st.tbt_values =
        evictWindow (pmNearBreach.tbt_values ++ [170]) := by
  have h := window_only_modified_by_record noFail pmNearBreach 170
  exact ⟨h.1, h.2.1, h.2.2 rfl rfl⟩

/-- C3: on an enabled manager with latency monitoring on, `record_tbt`
triggers the automatic rollback — a locked-clock reset attempted on
every managed device and the phase set back to prefill — exactly when,
after the sample is appended (and the oldest evicted beyond capacity),
the phase is decode, the window holds at least 3 samples, and the
window's arithmetic mean strictly exceeds the threshold; otherwise the
phase is unchanged and no device call is issued. -/
theorem record_tbt_rollback_iff (m : GPUPowerManager) (x : ℚ)
    (he : m.enabled = true) (hmon : m.monitor_tbt = true) :
    (rollbackCond m (evictWindow (m.tbt_values ++ [x])) →
      (record_tbt noFail m x).st.in_decode_phase = false ∧
      (record_tbt noFail m x).st.tbt_values =
        evictWindow (m.tbt_values ++ [x]) ∧
      (record_tbt noFail m x).calls =
        m.device_ids.flatMap (fun d =>
          [DevCall.getHandle d, DevCall.resetGpuLockedClocks d]) ∧
      ∀ d ∈ m.device_ids,
        DevCall.resetGpuLockedClocks d ∈ (record_tbt noFail m x).calls) ∧
    (¬ rollbackCond m (evictWindow (m.tbt_values ++ [x])) →
      (record_tbt noFail m x).st =
        { m with tbt_values := evictWindow (m.tbt_values ++ [x]) } ∧
      (record_tbt noFail m x).calls = []) := by
  have hrec := record_tbt_eq m x he hmon
  constructor
  · intro hc
    rw [hrec, if_pos hc]
    refine ⟨rfl, rfl, rfl, ?_⟩
    intro d hd
    exact List.mem_flatMap.mpr ⟨d, hd, by simp⟩
  · intro hc
    rw [hrec, if_neg hc]
    exact ⟨rfl, rfl⟩

/-- C3 witness: on the near-breach manager (decode phase, window
`[150, 160]`, threshold 100), recording 170 makes the window
`[150, 160, 170]` with mean 160 > 100: the rollback fires, resetting
device 0 and returning the phase to prefill. -/
theorem record_tbt_rollback_iff_witness :
    (record_tbt noFail pmNearBreach 170).st.in_decode_phase = false ∧
    (record_tbt noFail pmNearBreach 170).st.tbt_values =
      [150, 160, 170] ∧
    (record_tbt noFail pmNearBreach 170).calls =
      [DevCall.getHandle 0, DevCall.resetGpuLockedClocks 0] ∧
    DevCall.resetGpuLockedClocks 0 ∈
      (record_tbt noFail pmNearBreach 170).calls := by
  have hc : rollbackCond pmNearBreach
      (evictWindow (pmNearBreach.tbt_values ++ [170])) := by
    refine ⟨rfl, by norm_num [evictWindow, pmNearBreach], ?_⟩
    norm_num [evictWindow, pmNearBreach]
  have h := (record_tbt_rollback_iff pmNearBreach 170 rfl rfl).1 hc
  exact ⟨h.1, h.2.1, h.2.2.1, h.2.2.2 0 (by decide)⟩

/-- C8: on an enabled, monitoring manager whose window is within
capacity, any sequence of `record_tbt` calls keeps the window at no
more than 10 samples, and inserting 11 samples into an initially empty
window leaves exactly the most recent 10 in oldest-to-newest order —
the first inserted sample evicted. -/
theorem latency_window_bounded (m : GPUPowerManager) (qs : List ℚ)
    (fail : FaultModel) (he : m.enabled = true)
    (hmon : m.monitor_tbt = true) (hlen : m.tbt_values.length ≤ 10) :
    (runOps fail m (qs.map Op.recordTbt)).1.tbt_values.length ≤ 10 ∧
    (m.tbt_values = [] → qs.length = 11 →
      (runOps fail m (qs.map Op.recordTbt)).1.tbt_values = qs.drop 1) := by
  rw [runOps_records_window fail m qs he hmon]
  constructor
  · exact foldl_evict_length_le qs m.tbt_values hlen
  · intro h0 h11
    rw [h0]
    have hne : qs ≠ [] := by
      intro h
      rw [h] at h11
      exact absurd h11 (by norm_num)
    have hq : qs.dropLast ++ [qs.getLast hne] = qs :=
      List.dropLast_append_getLast hne
    have hdl : qs.dropLast.length = 10 := by
      rw [List.length_dropLast, h11]
    conv_lhs => rw [← hq]
    conv_rhs => rw [← hq]
    rw [List.foldl_concat,
      foldl_evict_of_fits qs.dropLast [] (by rw [hdl]; norm_num)]
    simp only [List.nil_append]
    unfold evictWindow
    rw [if_pos (by rw [List.length_append, hdl]; norm_num),
      List.drop_one]

/-- C8 witness: recording `[1,…,11]` on the fresh decode-phase manager
(empty window) yields the window `[2,…,11]`, of length 10. -/
theorem latency_window_bounded_witness :
    (runOps noFail pmB
        (([1, 2, 3, 4, 5, 6, 7, 8, 9, 10, 11] : List ℚ).map
          Op.recordTbt)).1.tbt_values.length ≤ 10 ∧
    (runOps noFail pmB
        (([1, 2, 3, 4, 5, 6, 7, 8, 9, 10, 11] : List ℚ).map
          Op.recordTbt)).1.tbt_values =
      ([1, 2, 3, 4, 5, 6, 7, 8, 9, 10, 11] : List ℚ).drop 1 := by
  have h := latency_window_bounded pmB
    ([1, 2, 3, 4, 5, 6, 7, 8, 9, 10, 11] : List ℚ) noFail rfl rfl
    (by decide)
  exact ⟨h.1, h.2 rfl rfl⟩

/-- C1 evaluation: under scenario A (max clock 2000, reduction 5 →
target 1900, one managed device), `enter_decode_phase` issues only the
handle lookup and NO set-locked-clock call — the
`nvmlDeviceSetGpuLockedClocks(handle, target, target)` line is
commented out in the source, which contradicts the surrounding code
comment and the success log it still emits. -/
theorem enter_decode_issues_no_set_call :
    (mkGPUPowerManager noFail true cfgA envA).1 = some pmA ∧
    pmA.target_clocks = [(0, 1900)] ∧
    enter_decode_phase noFail pmA =
      ⟨{ pmA with in_decode_phase := true }, [DevCall.getHandle 0],
        false⟩ ∧
    ∀ lo hi, DevCall.setGpuLockedClocks 0 lo hi ∉
      (enter_decode_phase noFail pmA).calls := by
  refine ⟨by decide, by decide, by decide, ?_⟩
  intro lo hi h
  have hc : (enter_decode_phase noFail pmA).calls =
      [DevCall.getHandle 0] := by decide
  rw [hc] at h
  simp at h

/-- C4 counterexample: recording `[50,60,70]` then `[150,160,170]` on
the decode-phase manager with threshold 100 does breach at the third
new sample, but the window then holds all six samples and its mean is
110 — not 160 as claimed (160 is the mean of the three new samples
alone). -/
theorem scenarioC_window_mean_not_160 :
    (recordMany pmB [50, 60, 70, 150, 160, 170]).1.tbt_values =
      [50, 60, 70, 150, 160, 170] ∧
    ((recordMany pmB [50, 60, 70, 150, 160, 170]).1.tbt_values.sum /
        ((recordMany pmB
          [50, 60, 70, 150, 160, 170]).1.tbt_values.length : ℚ)) =
      110 ∧
    ¬ (((recordMany pmB [50, 60, 70, 150, 160, 170]).1.tbt_values.sum /
        ((recordMany pmB
          [50, 60, 70, 150, 160, 170]).1.tbt_values.length : ℚ)) =
      160) := by
  norm_num [recordMany, runOps, runOp, record_tbt_eq, rollbackCond,
    evictWindow, pmB, List.sum_cons, List.sum_nil]

/-- C4 amended: with threshold 100, starting in decode with `[50,60,70]`
recorded (mean 60 < 100, no rollback), the further samples 150, 160,
170 cause the first breach exactly at the third new sample — where the
window holds all six samples, with mean 110 exceeding 100 — at which
point the controller resets clocks and transitions to prefill. -/
theorem scenarioBC_breach_at_third_new_sample :
    (recordMany pmB [50, 60, 70]).1.in_decode_phase = true ∧
    (recordMany pmB [50, 60, 70]).2 = [] ∧
    (recordMany pmB [50, 60, 70, 150]).1.in_decode_phase = true ∧
    (recordMany pmB [50, 60, 70, 150]).2 = [] ∧
    (recordMany pmB [50, 60, 70, 150, 160]).1.in_decode_phase = true ∧
    (recordMany pmB [50, 60, 70, 150, 160]).2 = [] ∧
    (recordMany pmB [50, 60, 70, 150, 160, 170]).1.in_decode_phase =
      false ∧
    (recordMany pmB [50, 60, 70, 150, 160, 170]).2 =
      [DevCall.getHandle 0, DevCall.resetGpuLockedClocks 0] ∧
    (100 : ℚ) <
      ((recordMany pmB [50, 60, 70, 150, 160, 170]).1.tbt_values.sum /
        ((recordMany pmB
          [50, 60, 70, 150, 160, 170]).1.tbt_values.length : ℚ)) := by
  norm_num [recordMany, runOps, runOp, record_tbt_eq, rollbackCond,
    evictWindow, pmB, List.sum_cons, List.sum_nil]

/-- C5: re-initializing the global manager while a previous enabled,
decode-phase instance exists finalizes that instance first —
`_power_manager = None` drops the last reference, running `__del__`,
whose `reset_clocks` issues a locked-clock reset for every device of
the previous instance — and only then constructs the new one: the
finalization calls form a prefix of the trace, ahead of every
constructor call. -/
theorem initialize_resets_previous_devices (fail : FaultModel)
    (prev : GPUPowerManager) (nvml_available : Bool) (cfg : PowerConfig)
    (env : DeviceEnv) (he : prev.enabled = true)
    (hdec : prev.in_decode_phase = true)
    (hh : ∀ d, fail (DevCall.getHandle d) = false) :
    (initialize_power_manager fail (some prev) nvml_available cfg
        env).2.1 =
      delGPUPowerManager fail prev ++
        (mkGPUPowerManager fail nvml_available cfg env).2 ∧
    ∀ d ∈ prev.device_ids,
      DevCall.resetGpuLockedClocks d ∈ delGPUPowerManager fail prev := by
  constructor
  · rfl
  · intro d hd
    unfold delGPUPowerManager
    simp only [he, if_true]
    unfold reset_clocks
    simp only [he, Bool.not_true, Bool.false_eq_true, if_false]
    rw [resetLoop_of_handles_ok fail prev.device_ids hh]
    simp only [Bool.false_eq_true, if_false]
    exact List.mem_append_left _
      (List.mem_flatMap.mpr ⟨d, hd, by simp⟩)

/-- C5 witness: re-initializing over the two-device decode-phase
instance issues the locked-clock reset for devices 0 and 1 during
finalization, before the new constructor's calls. -/
theorem initialize_resets_previous_devices_witness :
    (initialize_power_manager noFail (some pmPrev) true cfgA
        envA).2.1 =
      delGPUPowerManager noFail pmPrev ++
        (mkGPUPowerManager noFail true cfgA envA).2 ∧
    DevCall.resetGpuLockedClocks 0 ∈ delGPUPowerManager noFail pmPrev ∧
    DevCall.resetGpuLockedClocks 1 ∈ delGPUPowerManager noFail pmPrev := by
  have h := initialize_resets_previous_devices noFail pmPrev true cfgA
    envA rfl rfl (fun d => rfl)
  exact ⟨h.1, h.2 0 (by decide), h.2 1 (by decide)⟩

/-- C7 counterexample: on a two-device manager, a failure of the device
handle lookup — issued OUTSIDE the per-device `try` — is not caught:
`enter_decode_phase` raises to the caller, the remaining device is
never visited, and the new phase is not recorded. -/
theorem enter_decode_handle_failure_escapes :
    (enter_decode_phase failHandle0 pmTwo).raised = true ∧
    (enter_decode_phase failHandle0 pmTwo).st.in_decode_phase = false ∧
    (enter_decode_phase failHandle0 pmTwo).calls =
      [DevCall.getHandle 0] := by
  decide

/-- C7 amended: failures of the set/reset locked-clock calls themselves
are caught locally — during the decode→prefill transition every device
is attempted (its reset call issued even if it fails), no exception
reaches the caller, and the phase is recorded as prefill even if some
resets failed.  A failure of the handle lookup, by contrast, is not
caught (see the counterexample); and in `enter_decode_phase` no
set-clock call is issued at all, the set line being commented out. -/
theorem prefill_reset_failures_caught (fail : FaultModel)
    (m : GPUPowerManager) (he : m.enabled = true)
    (hdec : m.in_decode_phase = true)
    (hh : ∀ d, fail (DevCall.getHandle d) = false) :
    (enter_prefill_phase fail m).raised = false ∧
    (enter_prefill_phase fail m).st.in_decode_phase = false ∧
    (enter_prefill_phase fail m).st.tbt_values = m.tbt_values ∧
    (enter_prefill_phase fail m).calls =
      m.device_ids.flatMap (fun d =>
        [DevCall.getHandle d, DevCall.resetGpuLockedClocks d]) ∧
    ∀ d ∈ m.device_ids,
      DevCall.resetGpuLockedClocks d ∈ (enter_prefill_phase fail m).calls := by
  have heval : enter_prefill_phase fail m =
      ⟨{ m with in_decode_phase := false },
        m.device_ids.flatMap (fun d =>
          [DevCall.getHandle d, DevCall.resetGpuLockedClocks d]),
        false⟩ := by
    unfold enter_prefill_phase reset_clocks
    simp only [he, hdec, Bool.not_true, Bool.or_self, Bool.false_eq_true,
      if_false]
    rw [resetLoop_of_handles_ok fail m.device_ids hh]
    simp
  rw [heval]
  refine ⟨rfl, rfl, rfl, rfl, ?_⟩
  intro d hd
  exact List.mem_flatMap.mpr ⟨d, hd, by simp⟩

/-- C7 amended witness: on the two-device decode-phase manager with the
reset call on device 0 failing, the transition still visits both
devices, raises nothing, and records the prefill phase. -/
theorem prefill_reset_failures_caught_witness :
    (enter_prefill_phase failReset0 pmPrev).raised = false ∧
    (enter_prefill_phase failReset0 pmPrev).st.in_decode_phase = false ∧
    (enter_prefill_phase failReset0 pmPrev).st.tbt_values =
      pmPrev.tbt_values ∧
    (enter_prefill_phase failReset0 pmPrev).calls =
      pmPrev.device_ids.flatMap (fun d =>
        [DevCall.getHandle d, DevCall.resetGpuLockedClocks d]) ∧
    DevCall.resetGpuLockedClocks 0 ∈
      (enter_prefill_phase failReset0 pmPrev).calls ∧
    DevCall.resetGpuLockedClocks 1 ∈
      (enter_prefill_phase failReset0 pmPrev).calls := by
  have h := prefill_reset_failures_caught failReset0 pmPrev rfl rfl
    (fun d => rfl)
  exact ⟨h.1, h.2.1, h.2.2.1, h.2.2.2.1, h.2.2.2.2 0 (by decide),
    h.2.2.2.2 1 (by decide)⟩

end PowerManagement
